import Mathlib

/-!
Verification of the core of the `Financial-Analysis` repository
(`new-workflow-6/src/financial_analysis`): the ratio-calculation service,
the qualitative analysis (trend) service, the SEC EDGAR structured-fact
extractor, the in-memory facts cache, and the data-service orchestrator
(fallback and enrichment).

Python `Optional[float]` values are modelled as `Option ℚ` (exact
arithmetic; no claim depends on binary floating-point rounding).
Python dictionaries are modelled as association lists with
last-write-wins update, matching insertion-order iteration.
Exceptions are modelled with `Except Err`: `Err.dataProviderError`
models the repository's single `DataProviderError` class and
`Err.keyError` models a Python `KeyError` escaping from a `dict[...]`
subscript.  Timestamps (`retrieval_date`, `analysis_date`) and log
output are elided: no claim mentions them.
-/

/-- Exceptions observable from the embedded code: `DataProviderError msg`
(the repository's only custom error class, in `base_provider.py`), and a
Python `KeyError key` escaping from a dictionary subscript. -/
inductive Err where
  | dataProviderError : String → Err
  | keyError : String → Err
deriving DecidableEq, Repr

/-- Association-list lookup, modelling Python `dict.get` /
`key in dict` followed by `dict[key]`. -/
def lookupStr {α : Type} : List (String × α) → String → Option α
  | [], _ => none
  | (k, v) :: rest, key => if k = key then some v else lookupStr rest key

/-! ## Data model (`core/models.py`) -/

/-- `IncomeStatement` from `core/models.py`: every metric optional,
defaulting to `None`. -/
structure IncomeStatement where
  revenue : Option ℚ := none
  cost_of_goods_sold : Option ℚ := none
  gross_profit : Option ℚ := none
  operating_income : Option ℚ := none
  interest_expense : Option ℚ := none
  net_income : Option ℚ := none
  ebitda : Option ℚ := none
  eps_basic : Option ℚ := none
  eps_diluted : Option ℚ := none
deriving DecidableEq, Repr

/-- `BalanceSheet` from `core/models.py`. -/
structure BalanceSheet where
  total_assets : Option ℚ := none
  current_assets : Option ℚ := none
  cash_and_equivalents : Option ℚ := none
  inventory : Option ℚ := none
  accounts_receivable : Option ℚ := none
  total_liabilities : Option ℚ := none
  current_liabilities : Option ℚ := none
  total_debt : Option ℚ := none
  shareholders_equity : Option ℚ := none
  shares_outstanding : Option ℚ := none
deriving DecidableEq, Repr

/-- `CashFlowStatement` from `core/models.py`. -/
structure CashFlowStatement where
  operating_cash_flow : Option ℚ := none
  capital_expenditures : Option ℚ := none
  free_cash_flow : Option ℚ := none
  dividend_payments : Option ℚ := none
deriving DecidableEq, Repr

/-- `FinancialStatement` from `core/models.py`.  The `end_date` is kept as
the raw `YYYY-MM-DD` string handed to `datetime.strptime` (no claim
inspects the parsed date); the `retrieval_date` timestamp is elided. -/
structure FinancialStatement where
  ticker : String
  period : String
  fiscal_year : Int
  end_date : String
  income_statement : IncomeStatement
  balance_sheet : BalanceSheet
  cash_flow_statement : CashFlowStatement
  source_url : String
deriving DecidableEq, Repr

/-- `FinancialRatios` from `core/models.py`: all ratio fields optional. -/
structure FinancialRatios where
  ticker : String
  period : String
  fiscal_year : Int
  current_ratio : Option ℚ := none
  quick_ratio : Option ℚ := none
  cash_ratio : Option ℚ := none
  roe : Option ℚ := none
  roa : Option ℚ := none
  gross_margin : Option ℚ := none
  net_margin : Option ℚ := none
  ebitda_margin : Option ℚ := none
  debt_to_equity : Option ℚ := none
  debt_to_assets : Option ℚ := none
  times_interest_earned : Option ℚ := none
  debt_service_coverage : Option ℚ := none
  asset_turnover : Option ℚ := none
  inventory_turnover : Option ℚ := none
  receivables_turnover : Option ℚ := none
deriving DecidableEq, Repr

/-- `CompanyInfo` from `core/models.py`: `ticker` and `name` are required
strings, the remaining fields optional. -/
structure CompanyInfo where
  ticker : String
  name : String
  exchange : Option String := none
  sector : Option String := none
  industry : Option String := none
  description : Option String := none
  website : Option String := none
  cik : Option String := none
deriving DecidableEq, Repr

/-! ## Ratio engine (`services/calculation_service.py`) -/

/-- `CalculationService._safe_divide`: `None` when the numerator is
`None`, the denominator is `None`, or the denominator equals zero;
otherwise the exact quotient. -/
def safeDivide (numerator denominator : Option ℚ) : Option ℚ :=
  match numerator, denominator with
  | none, _ => none
  | _, none => none
  | some a, some b => if b = 0 then none else some (a / b)

/-- `CalculationService.calculate_ratios`: a pure, total transformation of
one `FinancialStatement` into one `FinancialRatios` record. -/
def calculateRatios (statement : FinancialStatement) : FinancialRatios :=
  let i := statement.income_statement
  let b := statement.balance_sheet
  let c := statement.cash_flow_statement
  let current_ratio := safeDivide b.current_assets b.current_liabilities
  let quick_assets : Option ℚ :=
    match b.current_assets, b.inventory with
    | some ca, some inv => some (ca - inv)
    | _, _ => none
  let quick_ratio := safeDivide quick_assets b.current_liabilities
  let cash_ratio := safeDivide b.cash_and_equivalents b.current_liabilities
  let roe := safeDivide i.net_income b.shareholders_equity
  let roa := safeDivide i.net_income b.total_assets
  let gross_margin := safeDivide i.gross_profit i.revenue
  let net_margin := safeDivide i.net_income i.revenue
  let ebitda_margin := safeDivide i.ebitda i.revenue
  let debt_to_equity := safeDivide b.total_debt b.shareholders_equity
  let debt_to_assets := safeDivide b.total_debt b.total_assets
  let times_interest_earned := safeDivide i.operating_income i.interest_expense
  let debt_service_coverage : Option ℚ :=
    match c.operating_cash_flow, b.total_debt with
    | some _, some _ => safeDivide c.operating_cash_flow b.total_debt
    | _, _ => none
  let asset_turnover := safeDivide i.revenue b.total_assets
  let inventory_turnover := safeDivide i.cost_of_goods_sold b.inventory
  let receivables_turnover := safeDivide i.revenue b.accounts_receivable
  { ticker := statement.ticker
    period := statement.period
    fiscal_year := statement.fiscal_year
    current_ratio := current_ratio
    quick_ratio := quick_ratio
    cash_ratio := cash_ratio
    roe := roe
    roa := roa
    gross_margin := gross_margin
    net_margin := net_margin
    ebitda_margin := ebitda_margin
    debt_to_equity := debt_to_equity
    debt_to_assets := debt_to_assets
    times_interest_earned := times_interest_earned
    debt_service_coverage := debt_service_coverage
    asset_turnover := asset_turnover
    inventory_turnover := inventory_turnover
    receivables_turnover := receivables_turnover }

/-- Specification predicate for one safe division: the result is `none`
exactly on the degenerate inputs, and is the exact quotient otherwise. -/
def divSpec (num den res : Option ℚ) : Prop :=
  (res = none ↔ num = none ∨ den = none ∨ den = some 0) ∧
  (∀ a b : ℚ, num = some a → den = some b → b ≠ 0 → res = some (a / b))

/-! ## Narrative synthesizer (`services/analysis_service.py`) -/

/-- `AnalysisService._get_trend`.  The input list is ordered most recent
first; `None` entries are filtered out, and the first surviving value is
compared against the last.  The labelling is purely numeric and identical
for every metric fed to it. -/
def getTrend (data : List (Option ℚ)) : String :=
  let valid := data.filterMap id
  if valid.length < 2 then "stable (insufficient data)"
  else if valid.headD 0 > valid.getLastD 0 then "improving"
  else if valid.headD 0 < valid.getLastD 0 then "declining"
  else "stable"

/-- Python truthiness of an `Optional[float]`: `None` and `0.0` are
falsy.  Models guards of the form `latest.x and latest.x >= t` in
`AnalysisService._synthesize_findings`. -/
def pyTruthy (o : Option ℚ) : Bool :=
  match o with
  | none => false
  | some v => v ≠ 0

/-- Trend reported by `_analyze_liquidity`: `none` when the latest
current ratio is `None` (the source then returns its
"data is not available" sentence), otherwise the `_get_trend` label over
the historical current-ratio series. -/
def liquidityTrend (latest : FinancialRatios) (ratios : List FinancialRatios) : Option String :=
  match latest.current_ratio with
  | none => none
  | some _ => some (getTrend (ratios.map (·.current_ratio)))

/-- Trend reported by `_analyze_profitability` (requires both the latest
net margin and the latest ROE to be present; trends the net margin). -/
def profitabilityTrend (latest : FinancialRatios) (ratios : List FinancialRatios) : Option String :=
  match latest.net_margin, latest.roe with
  | some _, some _ => some (getTrend (ratios.map (·.net_margin)))
  | _, _ => none

/-- Trend reported by `_analyze_leverage` over the debt-to-equity
series.  The source applies the same numeric `_get_trend` labelling used
for every other metric; its narrative text adds that a declining number
is generally favorable. -/
def leverageTrend (latest : FinancialRatios) (ratios : List FinancialRatios) : Option String :=
  match latest.debt_to_equity with
  | none => none
  | some _ => some (getTrend (ratios.map (·.debt_to_equity)))

/-- Trend reported by `_analyze_efficiency` over the asset-turnover
series. -/
def efficiencyTrend (latest : FinancialRatios) (ratios : List FinancialRatios) : Option String :=
  match latest.asset_turnover with
  | none => none
  | some _ => some (getTrend (ratios.map (·.asset_turnover)))

/-- Strength/concern tally of `_synthesize_findings`: liquidity
(current ratio at least 1.5 / below 1.0), profitability (net margin at
least 0.10 / below 0), leverage (debt-to-equity at most 0.5 / above
1.5), each guarded by Python truthiness of the optional value.  The
narrative strings placed in the lists are elided; only the counts feed
the overall verdict. -/
def synthCounts (latest : FinancialRatios) : Nat × Nat :=
  let liq : Nat × Nat :=
    if pyTruthy latest.current_ratio ∧ latest.current_ratio.getD 0 ≥ 3 / 2 then (1, 0)
    else if pyTruthy latest.current_ratio ∧ latest.current_ratio.getD 0 < 1 then (0, 1)
    else (0, 0)
  let prof : Nat × Nat :=
    if pyTruthy latest.net_margin ∧ latest.net_margin.getD 0 ≥ 1 / 10 then (1, 0)
    else if pyTruthy latest.net_margin ∧ latest.net_margin.getD 0 < 0 then (0, 1)
    else (0, 0)
  let lev : Nat × Nat :=
    if pyTruthy latest.debt_to_equity ∧ latest.debt_to_equity.getD 0 ≤ 1 / 2 then (1, 0)
    else if pyTruthy latest.debt_to_equity ∧ latest.debt_to_equity.getD 0 > 3 / 2 then (0, 1)
    else (0, 0)
  (liq.1 + prof.1 + lev.1, liq.2 + prof.2 + lev.2)

/-- Overall verdict string of `_synthesize_findings`. -/
def overallSummary (strengths concerns : Nat) : String :=
  if strengths > concerns ∧ concerns = 0 then
    "The company demonstrates a strong overall financial position based on the available data."
  else if concerns > strengths then
    "The analysis highlights several areas of concern that warrant attention."
  else "The company presents a mixed financial profile."

/-- Structured content of the dictionary returned by
`AnalysisService.generate_qualitative_analysis`: either the empty-input
error entry, or the per-category trends plus the synthesis tallies and
overall verdict.  The narrative prose sentences surrounding these values
are elided (no claim mentions them). -/
inductive QualSummary where
  | noRatioData : QualSummary
  | report : Option String → Option String → Option String → Option String →
      Nat → Nat → String → QualSummary
deriving DecidableEq, Repr

/-- `AnalysisService.generate_qualitative_analysis` (structured view):
empty input yields the error entry; otherwise `ratios[0]` is the latest
record and each category contributes its trend. -/
def generateQualitativeAnalysis (historical_ratios : List FinancialRatios) : QualSummary :=
  match historical_ratios with
  | [] => .noRatioData
  | latest :: _ =>
    let counts := synthCounts latest
    .report (liquidityTrend latest historical_ratios)
      (profitabilityTrend latest historical_ratios)
      (leverageTrend latest historical_ratios)
      (efficiencyTrend latest historical_ratios)
      counts.1 counts.2 (overallSummary counts.1 counts.2)

/-! ## Structured fact extractor (`data_providers/sec_edgar_provider.py`) -/

/-- One element of a `units` array in the SEC company-facts document.
Fields read with `item.get(...)` (`form`, `fp`) and fields read with a
subscript (`fy`, `end`, `val`) are all modelled as `Option`; a `none`
under a subscript read raises `Err.keyError`. -/
structure FactItem where
  form : Option String := none
  fp : Option String := none
  fy : Option Int := none
  endStr : Option String := none
  val : Option ℚ := none
deriving DecidableEq, Repr

/-- The per-tag fact payload: its `units` object maps a unit name
(e.g. `USD`) to an array of fact items.  A missing `units` key is
`none`. -/
structure FactData where
  units : Option (List (String × List FactItem)) := none
deriving DecidableEq, Repr

/-- The `us-gaap` object: tag name to fact payload, in document order. -/
abbrev GaapFacts : Type := List (String × FactData)

/-- The `facts` object of the company-facts document; `usGaap` models
its `us-gaap` key. -/
structure FactsInner where
  usGaap : Option GaapFacts := none
deriving Repr

/-- A company-facts document; `facts` models its top-level `facts`
key. -/
structure Facts where
  facts : Option FactsInner := none
deriving Repr

/-- `XBRL_TAG_MAP` from `sec_edgar_provider.py`, in source order: each
canonical metric maps to its preference-ordered list of US-GAAP tags. -/
def xbrlTagMap : List (String × List String) :=
  [("revenue", ["Revenues", "SalesRevenueNet", "TotalRevenues"]),
   ("cost_of_goods_sold", ["CostOfGoodsAndServicesSold", "CostOfRevenue"]),
   ("gross_profit", ["GrossProfit"]),
   ("operating_income", ["OperatingIncomeLoss"]),
   ("interest_expense", ["InterestExpense"]),
   ("net_income", ["NetIncomeLoss"]),
   ("eps_diluted", ["EarningsPerShareDiluted"]),
   ("eps_basic", ["EarningsPerShareBasic"]),
   ("cash_and_equivalents", ["CashAndCashEquivalentsAtCarryingValue"]),
   ("accounts_receivable", ["AccountsReceivableNetCurrent"]),
   ("inventory", ["InventoryNet"]),
   ("current_assets", ["AssetsCurrent"]),
   ("total_assets", ["Assets"]),
   ("current_liabilities", ["LiabilitiesCurrent"]),
   ("total_liabilities", ["Liabilities"]),
   ("total_debt", ["LongTermDebtAndCapitalLeaseObligations", "DebtCurrent"]),
   ("shareholders_equity", ["StockholdersEquity"]),
   ("shares_outstanding", ["WeightedAverageNumberOfDilutedSharesOutstanding",
      "WeightedAverageNumberOfSharesOutstandingBasic"]),
   ("operating_cash_flow", ["NetCashProvidedByUsedInOperatingActivities"]),
   ("capital_expenditures", ["PaymentsToAcquirePropertyPlantAndEquipment"]),
   ("dividend_payments", ["PaymentsOfDividends"])]

/-- The inner helper `get_fact_data` of `get_financial_statements`: the
payload of the FIRST tag of the metric present in the `us-gaap` object,
or `none` when no tag matches. -/
def getFactData (gaap : GaapFacts) : List String → Option FactData
  | [] => none
  | tag :: rest =>
    match lookupStr gaap tag with
    | some fd => some fd
    | none => getFactData gaap rest

/-- The per-year bucket of `annual_data`: metric name to value (a plain
Python dict, last write wins), plus the `end_date` entry, kept as a
separate field since no metric is named `end_date`. -/
structure YearData where
  metrics : List (String × ℚ) := []
  endDate : Option String := none
deriving DecidableEq, Repr

/-- The `annual_data` accumulator: fiscal year to year bucket. -/
abbrev AnnualData : Type := List (Int × YearData)

/-- Dict update `d[k] = v` on a metric bucket (replace or append). -/
def upsertQ : List (String × ℚ) → String → ℚ → List (String × ℚ)
  | [], k, v => [(k, v)]
  | (k2, w) :: rest, k, v =>
    if k2 = k then (k, v) :: rest else (k2, w) :: upsertQ rest k v

/-- The pair of writes `annual_data[fy][metric] = val` and
`annual_data[fy]["end_date"] = end_date` (both plain overwrites). -/
def updateYear : AnnualData → Int → String → ℚ → String → AnnualData
  | [], fy, metric, v, ed => [(fy, { metrics := [(metric, v)], endDate := some ed })]
  | (y, yd) :: rest, fy, metric, v, ed =>
    if y = fy then (y, { metrics := upsertQ yd.metrics metric v, endDate := some ed }) :: rest
    else (y, yd) :: updateYear rest fy metric v ed

/-- Lookup `annual_data[year]`. -/
def lookupYear : AnnualData → Int → Option YearData
  | [], _ => none
  | (y, yd) :: rest, fy => if y = fy then some yd else lookupYear rest fy

/-- Processing of one `units["USD"]` item inside the extraction loop:
entries are retained when `item.get("form") == "10-K"` and
`item.get("fp") == "FY"`; a retained entry reads `item["fy"]`,
`item["end"]` and `item["val"]` with subscripts, so a missing key raises
a `KeyError` that escapes the provider. -/
def processItem (ad : AnnualData) (metric : String) (item : FactItem) : Except Err AnnualData :=
  if item.form = some "10-K" ∧ item.fp = some "FY" then
    match item.fy with
    | none => .error (.keyError "fy")
    | some fy =>
      match item.endStr with
      | none => .error (.keyError "end")
      | some ed =>
        match item.val with
        | none => .error (.keyError "val")
        | some v => .ok (updateYear ad fy metric v ed)
  else .ok ad

/-- Sequential processing of a `units["USD"]` array. -/
def processItems (metric : String) : AnnualData → List FactItem → Except Err AnnualData
  | ad, [] => .ok ad
  | ad, item :: rest =>
    match processItem ad metric item with
    | .error e => .error e
    | .ok ad2 => processItems metric ad2 rest

/-- One iteration of the `for metric, tags in XBRL_TAG_MAP.items()` loop:
skip when no tag matches, the payload lacks a `units` key, or the units
lack a `USD` entry; otherwise fold the USD items into `annual_data`. -/
def processMetricTags (gaap : GaapFacts) (ad : AnnualData) (entry : String × List String) :
    Except Err AnnualData :=
  match getFactData gaap entry.2 with
  | none => .ok ad
  | some fd =>
    match fd.units with
    | none => .ok ad
    | some units =>
      match lookupStr units "USD" with
      | none => .ok ad
      | some items => processItems entry.1 ad items

/-- The whole metric loop over `XBRL_TAG_MAP`. -/
def processMetrics (gaap : GaapFacts) : AnnualData → List (String × List String) →
    Except Err AnnualData
  | ad, [] => .ok ad
  | ad, entry :: rest =>
    match processMetricTags gaap ad entry with
    | .error e => .error e
    | .ok ad2 => processMetrics gaap ad2 rest

/-- `annual_data` as computed by `get_financial_statements` from the
`us-gaap` object. -/
def buildAnnualData (gaap : GaapFacts) : Except Err AnnualData :=
  processMetrics gaap [] xbrlTagMap

/-- Insertion into a descending-sorted list of years. -/
def insertDesc (x : Int) : List Int → List Int
  | [] => [x]
  | y :: ys => if x ≥ y then x :: y :: ys else y :: insertDesc x ys

/-- `sorted(keys, reverse=True)`: fiscal years in descending order. -/
def sortDesc (l : List Int) : List Int := l.foldr insertDesc []

/-- Python `x or 0` on an optional float: `None` and `0.0` both give
`0`. -/
def pyOrZero (o : Option ℚ) : ℚ :=
  match o with
  | none => 0
  | some v => if v = 0 then 0 else v

/-- Construction of one `FinancialStatement` for a retained fiscal year.
`data.get(key)` lookups may yield `none`; `data["end_date"]` is a
subscript and would raise a `KeyError` when absent.  The `total_debt`
special case reads `data.get("debt_current_from_tag")` — a key never
written anywhere — and keeps the sum only when strictly positive. -/
def buildStatement (ticker cik : String) (fy : Int) (yd : YearData) :
    Except Err FinancialStatement :=
  match yd.endDate with
  | none => .error (.keyError "end_date")
  | some ed =>
    let d := fun k => lookupStr yd.metrics k
    let total_debt_val := pyOrZero (d "total_debt") + pyOrZero (d "debt_current_from_tag")
    .ok
      { ticker := ticker.toUpper
        period := "FY"
        fiscal_year := fy
        end_date := ed
        income_statement :=
          { revenue := d "revenue"
            cost_of_goods_sold := d "cost_of_goods_sold"
            gross_profit := d "gross_profit"
            operating_income := d "operating_income"
            interest_expense := d "interest_expense"
            net_income := d "net_income"
            eps_diluted := d "eps_diluted"
            eps_basic := d "eps_basic" }
        balance_sheet :=
          { total_assets := d "total_assets"
            current_assets := d "current_assets"
            cash_and_equivalents := d "cash_and_equivalents"
            inventory := d "inventory"
            accounts_receivable := d "accounts_receivable"
            total_liabilities := d "total_liabilities"
            current_liabilities := d "current_liabilities"
            total_debt := if total_debt_val > 0 then some total_debt_val else none
            shareholders_equity := d "shareholders_equity"
            shares_outstanding := d "shares_outstanding" }
        cash_flow_statement :=
          { operating_cash_flow := d "operating_cash_flow"
            capital_expenditures := d "capital_expenditures"
            dividend_payments := d "dividend_payments" }
        source_url := "https://data.sec.gov/api/xbrl/companyfacts/CIK" ++ cik ++ ".json" }

/-- The statement-construction loop over the retained years. -/
def buildStatements (f : Int → Except Err FinancialStatement) :
    List Int → Except Err (List FinancialStatement)
  | [] => .ok []
  | y :: ys =>
    match f y with
    | .error e => .error e
    | .ok s =>
      match buildStatements f ys with
      | .error e => .error e
      | .ok rest => .ok (s :: rest)

/-- Builder for one sorted year: `annual_data[year]` then statement
construction (the year is always a key of `annual_data`). -/
def statementForYear (ticker cik : String) (ad : AnnualData) (y : Int) :
    Except Err FinancialStatement :=
  match lookupYear ad y with
  | none => .error (.keyError "year")
  | some yd => buildStatement ticker cik y yd

/-- `SecEdgarProvider.get_financial_statements`, starting from the
already-fetched company-facts document (network retrieval and CIK
resolution are the function's collaborators): check the `facts` and
`us-gaap` keys, fold the tag map into `annual_data`, sort the fiscal
years descending, keep the first `num_years`, construct one statement
per retained year, and raise `DataProviderError` when no statement was
constructed. -/
def getFinancialStatements (factsDoc : Facts) (ticker cik : String) (numYears : Nat) :
    Except Err (List FinancialStatement) :=
  match factsDoc.facts with
  | none => .error (.dataProviderError ("No US-GAAP facts found for CIK " ++ cik ++ "."))
  | some inner =>
    match inner.usGaap with
    | none => .error (.dataProviderError ("No US-GAAP facts found for CIK " ++ cik ++ "."))
    | some gaap =>
      match buildAnnualData gaap with
      | .error e => .error e
      | .ok ad =>
        match buildStatements (statementForYear ticker cik ad)
            ((sortDesc (ad.map (·.1))).take numYears) with
        | .error e => .error e
        | .ok stmts =>
          if stmts = [] then
            .error (.dataProviderError ("Could not construct any financial statements for " ++
              ticker ++ ". The company might not file 10-Ks or data is unavailable."))
          else .ok stmts

/-- `SecEdgarProvider._get_company_facts` with its in-memory
`_company_facts_cache` dictionary made explicit.  `fetch` models the
network retrieval (already mapped to `DataProviderError` on request
failure, as in the source).  The result carries the outcome, the updated
cache, and how many times `fetch` was invoked. -/
def getCompanyFacts (fetch : String → Except Err Facts) (cache : List (String × Facts))
    (cik : String) : Except Err Facts × List (String × Facts) × Nat :=
  match lookupStr cache cik with
  | some f => (.ok f, cache, 0)
  | none =>
    match fetch cik with
    | .ok f => (.ok f, (cik, f) :: cache, 1)
    | .error e => (.error e, cache, 1)

/-! ## Acquisition orchestrator (`services/data_service.py`, `system.py`) -/

/-- A configured data provider (`BaseDataProvider` subclass), abstracted
to its class name and the deterministic outcomes of its two operations
for the ticker under analysis (exactly how the repository's own test
mocks model a provider). -/
structure DataProvider where
  name : String
  infoResult : Except Err CompanyInfo
  stmtsResult : Except Err (List FinancialStatement)

/-- Whether an error is a `DataProviderError` — the only exception class
caught by the `except DataProviderError` handlers of
`DataService.fetch_company_financials`; any other escaped exception
(e.g. a `KeyError`) propagates. -/
def Err.isCaught : Err → Bool
  | .dataProviderError _ => true
  | .keyError _ => false

/-- The statement-fallback loop of `fetch_company_financials` (step 1):
try providers in order, calling `get_company_info` then
`get_financial_statements`; on a `DataProviderError` from either, log
and continue; break on the first provider for which both succeed.
Returns `none` when every provider was tried and none succeeded. -/
def firstSuccess : List DataProvider →
    Except Err (Option (CompanyInfo × List FinancialStatement))
  | [] => .ok none
  | p :: ps =>
    match p.infoResult with
    | .error e => if e.isCaught then firstSuccess ps else .error e
    | .ok info =>
      match p.stmtsResult with
      | .error e => if e.isCaught then firstSuccess ps else .error e
      | .ok stmts => .ok (some (info, stmts))

/-- The field-level fill of the enrichment pass: a field of the merged
dict is written only when it is still `None` and the offered value is
not `None`. -/
def fillField (merged offered : Option String) : Option String :=
  match merged with
  | none => offered
  | some v => some v

/-- Merging one enrichment provider's `CompanyInfo` into the merged dict
(the field loop over `model_dump()`): `ticker` and `name` are required
strings and hence never `None` in the merged dict, so they are never
overwritten; each optional field is filled only when still `None`. -/
def mergeInfo (base enrichment : CompanyInfo) : CompanyInfo :=
  { ticker := base.ticker
    name := base.name
    exchange := fillField base.exchange enrichment.exchange
    sector := fillField base.sector enrichment.sector
    industry := fillField base.industry enrichment.industry
    description := fillField base.description enrichment.description
    website := fillField base.website enrichment.website
    cik := fillField base.cik enrichment.cik }

/-- The enrichment pass of `fetch_company_financials` (step 2): call
`get_company_info` on EVERY configured provider in priority order,
merging each successful result field by field; a `DataProviderError` is
logged and skipped, while any other exception propagates. -/
def enrichInfo : CompanyInfo → List DataProvider → Except Err CompanyInfo
  | base, [] => .ok base
  | base, p :: ps =>
    match p.infoResult with
    | .ok info => enrichInfo (mergeInfo base info) ps
    | .error e => if e.isCaught then enrichInfo base ps else .error e

/-- `DataService.fetch_company_financials`: statement fallback, the
empty-result guard (`if not statements or not company_info`), then info
enrichment over the full provider list. -/
def fetchCompanyFinancials (ticker : String) (providers : List DataProvider) :
    Except Err (CompanyInfo × List FinancialStatement) :=
  match firstSuccess providers with
  | .error e => .error e
  | .ok none =>
    .error (.dataProviderError ("Could not retrieve financial statements for " ++ ticker ++
      " from any source."))
  | .ok (some (info, stmts)) =>
    if stmts = [] then
      .error (.dataProviderError ("Could not retrieve financial statements for " ++ ticker ++
        " from any source."))
    else
      match enrichInfo info providers with
      | .error e => .error e
      | .ok merged => .ok (merged, stmts)

/-- `CompanyAnalysis` from `core/models.py` (the `analysis_date`
timestamp is elided; `qualitative_analysis` carries the structured view
of the analysis dictionary). -/
structure CompanyAnalysis where
  company_info : CompanyInfo
  historical_statements : List FinancialStatement
  historical_ratios : List FinancialRatios
  qualitative_analysis : QualSummary
  data_sources_used : List String

/-- `FinancialAnalysisSystem.run` up to assembly of the final
`CompanyAnalysis` (report rendering is an external collaborator): fetch,
the (unreachable) early return on an empty statement list — modelled by
`Option` —, per-statement ratio calculation, qualitative analysis, and
assembly.  `data_sources_used` is built from `self.data_service.providers`,
i.e. from ALL configured providers. -/
def runSystem (ticker : String) (providers : List DataProvider) :
    Except Err (Option CompanyAnalysis) :=
  match fetchCompanyFinancials ticker providers with
  | .error e => .error e
  | .ok (company_info, statements) =>
    if statements = [] then .ok none
    else
      let historical_ratios := statements.map calculateRatios
      let qualitative_analysis := generateQualitativeAnalysis historical_ratios
      .ok (some
        { company_info := company_info
          historical_statements := statements
          historical_ratios := historical_ratios
          qualitative_analysis := qualitative_analysis
          data_sources_used := providers.map (·.name) })

/-! ## Concrete inputs for counterexamples and witnesses -/

/-- The sample statement of `tests/services/test_calculation_service.py`
(fixture `sample_statement`). -/
def sampleStatement : FinancialStatement :=
  { ticker := "TEST"
    period := "FY"
    fiscal_year := 2023
    end_date := "2023-12-31"
    income_statement :=
      { revenue := some 1000
        gross_profit := some 400
        operating_income := some 200
        net_income := some 100
        interest_expense := some 20 }
    balance_sheet :=
      { current_assets := some 500
        total_assets := some 2000
        inventory := some 100
        cash_and_equivalents := some 50
        current_liabilities := some 250
        total_liabilities := some 1000
        total_debt := some 800
        shareholders_equity := some 1000 }
    cash_flow_statement := { operating_cash_flow := some 180 }
    source_url := "http://example.com" }

/-- A fact item retained by the annual filter: a 10-K full-year entry. -/
def annualItem (fy : Int) (ed : String) (v : ℚ) : FactItem :=
  { form := some "10-K", fp := some "FY", fy := some fy, endStr := some ed, val := some v }

/-- A `us-gaap` object in which TWO acceptable `total_debt` source tags
each carry a retained fiscal-2023 entry: the long-term tag reports 300
and the current-debt tag reports 500. -/
def gaapTwoDebt : GaapFacts :=
  [("LongTermDebtAndCapitalLeaseObligations",
     { units := some [("USD", [annualItem 2023 "2023-12-31" 300])] }),
   ("DebtCurrent",
     { units := some [("USD", [annualItem 2023 "2023-12-31" 500])] })]

/-- The company-facts document wrapping `gaapTwoDebt`. -/
def factsTwoDebtTags : Facts := { facts := some { usGaap := some gaapTwoDebt } }

/-- The `annual_data` accumulator produced from `gaapTwoDebt`: only the
value of the FIRST matching debt tag was recorded. -/
def adTwoDebt : AnnualData :=
  [(2023, { metrics := [("total_debt", 300)], endDate := some "2023-12-31" })]

/-- A company-facts document whose `us-gaap` object is empty: zero
qualifying fiscal years. -/
def factsNoYears : Facts := { facts := some { usGaap := some [] } }

/-- A retained annual entry (10-K, full year) that lacks the `end`
(period-end date) key. -/
def itemNoEnd : FactItem :=
  { form := some "10-K", fp := some "FY", fy := some 2023, endStr := none, val := some 100 }

/-- A `us-gaap` object whose only retained revenue entry lacks the
period-end date. -/
def gaapMissingEnd : GaapFacts :=
  [("Revenues", { units := some [("USD", [itemNoEnd])] })]

/-- A company-facts document with one retained annual revenue entry that
lacks the `end` (period-end date) key. -/
def factsMissingEnd : Facts := { facts := some { usGaap := some gaapMissingEnd } }

/-- The primary provider's company info for the enrichment example of
the spec: name present, sector missing. -/
def infoPrimaryX : CompanyInfo := { ticker := "TEST", name := "X" }

/-- The secondary provider's company info for the enrichment example:
a different name and a populated sector. -/
def infoSecondaryY : CompanyInfo := { ticker := "TEST", name := "Y", sector := some "Tech" }

/-- Company info returned by the succeeding provider B. -/
def infoB : CompanyInfo := { ticker := "TEST", name := "Provider B Name" }

/-- The single statement returned by the succeeding provider B. -/
def stmtB : FinancialStatement :=
  { ticker := "TEST"
    period := "FY"
    fiscal_year := 2023
    end_date := "2023-12-31"
    income_statement := {}
    balance_sheet := {}
    cash_flow_statement := {}
    source_url := "" }

/-- Provider A: fails for both company info and statements with a
`DataProviderError`, like the `failing_provider` test mock. -/
def providerA : DataProvider :=
  { name := "ProviderA"
    infoResult := .error (.dataProviderError "ProviderA failed to get info")
    stmtsResult := .error (.dataProviderError "ProviderA failed to get statements") }

/-- Provider B: succeeds for both operations. -/
def providerB : DataProvider :=
  { name := "ProviderB"
    infoResult := .ok infoB
    stmtsResult := .ok [stmtB] }

/-- A primary provider carrying the spec's enrichment-example info. -/
def providerX : DataProvider :=
  { name := "ProviderX", infoResult := .ok infoPrimaryX, stmtsResult := .ok [stmtB] }

/-- A secondary provider carrying the spec's enrichment-example info. -/
def providerY : DataProvider :=
  { name := "ProviderY", infoResult := .ok infoSecondaryY, stmtsResult := .ok [stmtB] }

/-- A fetch function for the cache model that always succeeds with the
same document. -/
def fetchConst : String → Except Err Facts := fun _ => .ok factsNoYears

/-- The statement that `get_financial_statements` constructs from
`factsTwoDebtTags`: only the FIRST matching debt tag's value (300)
survives. -/
def stmtTwoDebt : FinancialStatement :=
  { ticker := "MSFT".toUpper
    period := "FY"
    fiscal_year := 2023
    end_date := "2023-12-31"
    income_statement := {}
    balance_sheet := { total_debt := some 300 }
    cash_flow_statement := {}
    source_url := "https://data.sec.gov/api/xbrl/companyfacts/CIK0000789019.json" }

/-- The company infos offered by the providers that succeeded for
`get_company_info`, in priority order. -/
def okInfos (ps : List DataProvider) : List CompanyInfo :=
  ps.filterMap (fun p => p.infoResult.toOption)

/-- First non-`None` value of a list of offered field values. -/
def firstFilled (l : List (Option String)) : Option String :=
  l.foldr fillField none

/-- Modelled from the spec (section 4.5, info enrichment): starting from
the primary provider's info, each optional field is filled — only when
still null — with the first non-null value offered in provider priority
order; `ticker` and `name` are never null and never overwritten.  Used
to compare the code's sequential enrichment pass against the spec's
field-by-field description. -/
def enrichSpecInfo (base : CompanyInfo) (ps : List DataProvider) : CompanyInfo :=
  { ticker := base.ticker
    name := base.name
    exchange := fillField base.exchange (firstFilled ((okInfos ps).map (·.exchange)))
    sector := fillField base.sector (firstFilled ((okInfos ps).map (·.sector)))
    industry := fillField base.industry (firstFilled ((okInfos ps).map (·.industry)))
    description := fillField base.description (firstFilled ((okInfos ps).map (·.description)))
    website := fillField base.website (firstFilled ((okInfos ps).map (·.website)))
    cik := fillField base.cik (firstFilled ((okInfos ps).map (·.cik))) }

/-- Every `get_company_info` failure of the provider is a
`DataProviderError`, i.e. is caught by the enrichment pass's handler. -/
def infoFailureCaught (p : DataProvider) : Prop :=
  ∀ e, p.infoResult = Except.error e → e.isCaught = true

/-- The provider fails the statement-fallback attempt with a caught
`DataProviderError`: either its `get_company_info` raises one, or its
info succeeds and its `get_financial_statements` raises one. -/
def FailsForStatements (p : DataProvider) : Prop :=
  (∃ m, p.infoResult = Except.error (Err.dataProviderError m)) ∨
  (∃ i m, p.infoResult = Except.ok i ∧ p.stmtsResult = Except.error (Err.dataProviderError m))

/-! ## Shared helper lemmas -/

/-- `_safe_divide` satisfies the safe-divide specification. -/
theorem safeDivide_divSpec (n d : Option ℚ) : divSpec n d (safeDivide n d) := by
  constructor
  · match n, d with
    | none, none => simp [safeDivide]
    | none, some b => simp [safeDivide]
    | some a, none => simp [safeDivide]
    | some a, some b =>
      by_cases hb : b = 0 <;> simp [safeDivide, hb]
  · intro a b ha hb hbne
    subst ha; subst hb
    simp [safeDivide, hbne]

/-- Filling with no offered value keeps the field. -/
theorem fillField_none (m : Option String) : fillField m none = m := by
  cases m <;> rfl

/-- Field filling is associative. -/
theorem fillField_assoc (a b c : Option String) :
    fillField (fillField a b) c = fillField a (fillField b c) := by
  cases a <;> cases b <;> rfl

/-- A metric-loop iteration whose metric matches no tag leaves
`annual_data` unchanged. -/
theorem processMetricTags_of_none {gaap : GaapFacts} {ad : AnnualData}
    {e : String × List String} (h : getFactData gaap e.2 = none) :
    processMetricTags gaap ad e = .ok ad := by
  simp [processMetricTags, h]

/-- On `gaapTwoDebt` the extraction loop records only the first debt
tag's value (300); the `DebtCurrent` value 500 never contributes. -/
theorem buildAnnualData_gaapTwoDebt : buildAnnualData gaapTwoDebt = .ok adTwoDebt := by
  simp [buildAnnualData, xbrlTagMap, processMetrics, processMetricTags_of_none,
    getFactData, gaapTwoDebt, lookupStr]
  simp [processMetricTags, getFactData, lookupStr, processItems, processItem,
    annualItem, updateYear, adTwoDebt]

/-- Full evaluation of the extractor on the two-debt-tag document. -/
theorem getFS_twoDebt :
    getFinancialStatements factsTwoDebtTags "MSFT" "0000789019" 5 = .ok [stmtTwoDebt] := by
  rw [getFinancialStatements]
  simp only [factsTwoDebtTags, buildAnnualData_gaapTwoDebt]
  simp [adTwoDebt, sortDesc, insertDesc, buildStatements, statementForYear, lookupYear,
    buildStatement, upsertQ, pyOrZero, lookupStr, stmtTwoDebt]

/-- Every statement in a successful construction run comes from the
per-year builder. -/
theorem buildStatements_mem {f : Int → Except Err FinancialStatement} :
    ∀ {ys : List Int} {stmts : List FinancialStatement} {s : FinancialStatement},
      buildStatements f ys = .ok stmts → s ∈ stmts → ∃ y, f y = .ok s := by
  intro ys
  induction ys with
  | nil =>
    intro stmts s h hs
    simp only [buildStatements] at h
    cases h
    simp at hs
  | cons y ys ih =>
    intro stmts s h hs
    simp only [buildStatements] at h
    cases hfy : f y with
    | error e => rw [hfy] at h; cases h
    | ok s0 =>
      rw [hfy] at h
      cases hrest : buildStatements f ys with
      | error e => rw [hrest] at h; cases h
      | ok rest =>
        rw [hrest] at h
        cases h
        rcases List.mem_cons.mp hs with h1 | h2
        · exact ⟨y, h1 ▸ hfy⟩
        · exact ih hrest h2

/-! ## Claims -/

/-- Claim C1: for every pair of optional numeric inputs, the ratio
engine's safe-divide returns null if and only if the numerator is null,
the denominator is null, or the denominator equals zero; in every other
case it returns exactly the quotient of numerator by denominator. -/
theorem claim_C1_safe_divide (n d : Option ℚ) : divSpec n d (safeDivide n d) :=
  safeDivide_divSpec n d

/-- Witness for C1 at the spec's concrete examples:
`safe_divide(10, 2) = 5`, `safe_divide(10, 0) = null`,
`safe_divide(null, 5) = null`. -/
theorem claim_C1_witness :
    safeDivide (some 10) (some 2) = some 5 ∧
    safeDivide (some 10) (some 0) = none ∧
    safeDivide none (some 5) = none := by
  refine ⟨?_, ?_, ?_⟩
  · have h := (claim_C1_safe_divide (some 10) (some 2)).2 10 2 rfl rfl (by norm_num)
    rw [h]; norm_num
  · exact (claim_C1_safe_divide (some 10) (some 0)).1.mpr (Or.inr (Or.inr rfl))
  · exact (claim_C1_safe_divide none (some 5)).1.mpr (Or.inl rfl)

/-- Claim C6: `calculate_ratios` is a total function of the statement
(the embedding itself is a total Lean function, with no error channel in
its type), and every ratio field satisfies the safe-divide
specification with respect to its operands: arithmetically invalid
ratios (missing operand or zero denominator) degrade to null, and valid
ones are exact quotients.  The quick-ratio numerator is the source's
guarded subtraction and the debt-service-coverage field is the source's
guarded safe division. -/
theorem claim_C6_ratios_never_raise (s : FinancialStatement) :
    divSpec s.balance_sheet.current_assets s.balance_sheet.current_liabilities
      (calculateRatios s).current_ratio ∧
    divSpec
      (match s.balance_sheet.current_assets, s.balance_sheet.inventory with
       | some ca, some inv => some (ca - inv)
       | _, _ => none)
      s.balance_sheet.current_liabilities (calculateRatios s).quick_ratio ∧
    divSpec s.balance_sheet.cash_and_equivalents s.balance_sheet.current_liabilities
      (calculateRatios s).cash_ratio ∧
    divSpec s.income_statement.net_income s.balance_sheet.shareholders_equity
      (calculateRatios s).roe ∧
    divSpec s.income_statement.net_income s.balance_sheet.total_assets
      (calculateRatios s).roa ∧
    divSpec s.income_statement.gross_profit s.income_statement.revenue
      (calculateRatios s).gross_margin ∧
    divSpec s.income_statement.net_income s.income_statement.revenue
      (calculateRatios s).net_margin ∧
    divSpec s.income_statement.ebitda s.income_statement.revenue
      (calculateRatios s).ebitda_margin ∧
    divSpec s.balance_sheet.total_debt s.balance_sheet.shareholders_equity
      (calculateRatios s).debt_to_equity ∧
    divSpec s.balance_sheet.total_debt s.balance_sheet.total_assets
      (calculateRatios s).debt_to_assets ∧
    divSpec s.income_statement.operating_income s.income_statement.interest_expense
      (calculateRatios s).times_interest_earned ∧
    divSpec s.cash_flow_statement.operating_cash_flow s.balance_sheet.total_debt
      (calculateRatios s).debt_service_coverage ∧
    divSpec s.income_statement.revenue s.balance_sheet.total_assets
      (calculateRatios s).asset_turnover ∧
    divSpec s.income_statement.cost_of_goods_sold s.balance_sheet.inventory
      (calculateRatios s).inventory_turnover ∧
    divSpec s.income_statement.revenue s.balance_sheet.accounts_receivable
      (calculateRatios s).receivables_turnover := by
  have hdscr : (calculateRatios s).debt_service_coverage =
      safeDivide s.cash_flow_statement.operating_cash_flow s.balance_sheet.total_debt := by
    cases hc : s.cash_flow_statement.operating_cash_flow <;>
      cases hd : s.balance_sheet.total_debt <;>
        simp [calculateRatios, safeDivide, hc, hd]
  refine ⟨safeDivide_divSpec _ _, safeDivide_divSpec _ _, safeDivide_divSpec _ _,
    safeDivide_divSpec _ _, safeDivide_divSpec _ _, safeDivide_divSpec _ _,
    safeDivide_divSpec _ _, safeDivide_divSpec _ _, safeDivide_divSpec _ _,
    safeDivide_divSpec _ _, safeDivide_divSpec _ _, ?_,
    safeDivide_divSpec _ _, safeDivide_divSpec _ _, safeDivide_divSpec _ _⟩
  rw [hdscr]
  exact safeDivide_divSpec _ _

/-- Witness for C6 at the repository's own test fixture
(current_assets = 500, current_liabilities = 250): the current ratio
evaluates to exactly 2. -/
theorem claim_C6_witness : (calculateRatios sampleStatement).current_ratio = some 2 := by
  have h := (claim_C6_ratios_never_raise sampleStatement).1.2 500 250 rfl rfl (by norm_num)
  rw [h]; norm_num

/-- Last element of a list ending in `b`. -/
theorem getLastD_append_single (l : List ℚ) (b d : ℚ) : (l ++ [b]).getLastD d = b := by
  induction l generalizing d with
  | nil => rfl
  | cons a l ih => rw [List.cons_append, List.getLastD_cons]; exact ih a

/-- Claim C3 (amended): the trend label is purely numeric and identical
for every metric category — with the series ordered most recent first
and `valid` its non-null values, the label is `improving` when the first
valid value exceeds the last, `declining` when it is smaller, `stable`
on equality, and `stable (insufficient data)` when fewer than two valid
values exist.  In particular the rising current-ratio series
[2.0, 1.5, 1.0] is labelled `improving`, while the falling
debt-to-equity series [0.8, 1.0, 1.2] is labelled `declining` (not
`improving` as the claim states); the leverage narrative instead appends
that a declining number is generally favorable. -/
theorem claim_C3_trend_numeric :
    (∀ (data : List (Option ℚ)) (a : ℚ) (mid : List ℚ) (b : ℚ),
       data.filterMap id = a :: (mid ++ [b]) →
       getTrend data = if b < a then "improving"
         else if a < b then "declining" else "stable") ∧
    (∀ data : List (Option ℚ), (data.filterMap id).length < 2 →
       getTrend data = "stable (insufficient data)") ∧
    getTrend [some 2.0, some 1.5, some 1.0] = "improving" := by
  refine ⟨?_, ?_, ?_⟩
  · intro data a mid b h
    rw [getTrend, h]
    have hlen : ¬ (a :: (mid ++ [b])).length < 2 := by
      simp [List.length_cons, List.length_append]
    rw [if_neg hlen]
    have hhead : (a :: (mid ++ [b])).headD 0 = a := rfl
    have hlast : (a :: (mid ++ [b])).getLastD 0 = b := by
      rw [show a :: (mid ++ [b]) = (a :: mid) ++ [b] from rfl]
      exact getLastD_append_single (a :: mid) b 0
    rw [hhead, hlast]
  · intro data h
    rw [getTrend, if_pos h]
  · norm_num [getTrend, List.filterMap_cons, List.getLastD]

/-- Counterexample for C3: the debt-to-equity series [0.8, 1.0, 1.2]
(most recent first, i.e. leverage falling over time) is labelled
`declining` by the trend rule, not `improving`. -/
theorem claim_C3_counterexample :
    getTrend [some 0.8, some 1.0, some 1.2] = "declining" ∧
    "declining" ≠ "improving" := by
  constructor
  · norm_num [getTrend, List.filterMap_cons, List.getLastD]
  · decide

/-- Witness for C3 at concrete inputs: a two-point rising series is
`improving`, and the empty series reports insufficient data. -/
theorem claim_C3_witness :
    getTrend [some (2 : ℚ), some 1] = "improving" ∧
    getTrend ([] : List (Option ℚ)) = "stable (insufficient data)" := by
  constructor
  · have h := claim_C3_trend_numeric.1 [some (2 : ℚ), some 1] 2 [] 1 (by simp)
    rw [h]
    norm_num
  · exact claim_C3_trend_numeric.2.1 [] (by simp)

/-- Claim C9: starting from a cache without the key, a first lookup with
a succeeding fetch invokes the fetch exactly once and stores the result;
an immediately following lookup with the same key returns the stored
document without invoking the fetch again (entries of the in-memory
dictionary never expire). -/
theorem claim_C9_cache_single_fetch (fetch : String → Except Err Facts)
    (cache : List (String × Facts)) (cik : String) (doc : Facts)
    (hmiss : lookupStr cache cik = none) (hfetch : fetch cik = .ok doc) :
    getCompanyFacts fetch cache cik = (.ok doc, (cik, doc) :: cache, 1) ∧
    getCompanyFacts fetch ((cik, doc) :: cache) cik = (.ok doc, (cik, doc) :: cache, 0) := by
  constructor
  · simp [getCompanyFacts, hmiss, hfetch]
  · simp [getCompanyFacts, lookupStr]

/-- Witness for C9 on an empty cache and a constant fetch function. -/
theorem claim_C9_witness :
    getCompanyFacts fetchConst [] "0000000001" =
      (.ok factsNoYears, [("0000000001", factsNoYears)], 1) ∧
    getCompanyFacts fetchConst [("0000000001", factsNoYears)] "0000000001" =
      (.ok factsNoYears, [("0000000001", factsNoYears)], 0) :=
  claim_C9_cache_single_fetch fetchConst [] "0000000001" factsNoYears rfl rfl

/-- Pushing one successful provider through the spec-side enrichment
description. -/
theorem enrichSpecInfo_cons_ok {p : DataProvider} {info : CompanyInfo}
    (base : CompanyInfo) (ps : List DataProvider) (hp : p.infoResult = .ok info) :
    enrichSpecInfo base (p :: ps) = enrichSpecInfo (mergeInfo base info) ps := by
  simp [enrichSpecInfo, okInfos, List.filterMap_cons, hp, Except.toOption, mergeInfo,
    firstFilled, fillField_assoc]

/-- Skipping one failing provider in the spec-side enrichment
description. -/
theorem enrichSpecInfo_cons_err {p : DataProvider} {e : Err}
    (base : CompanyInfo) (ps : List DataProvider) (hp : p.infoResult = .error e) :
    enrichSpecInfo base (p :: ps) = enrichSpecInfo base ps := by
  simp [enrichSpecInfo, okInfos, List.filterMap_cons, hp, Except.toOption]

/-- Claim C5: when every `get_company_info` failure among the configured
providers is a (caught) `DataProviderError`, the enrichment pass returns
exactly the spec-described merge: each optional field of the primary
info is filled — only when still null — with the first non-null value
offered in provider priority order; `ticker` and `name` (and every
non-null primary field) are never overwritten, and failing providers are
skipped without aborting the pass. -/
theorem claim_C5_enrichment (base : CompanyInfo) (ps : List DataProvider)
    (h : ∀ p ∈ ps, infoFailureCaught p) :
    enrichInfo base ps = .ok (enrichSpecInfo base ps) := by
  induction ps generalizing base with
  | nil =>
    show Except.ok base = _
    simp [enrichSpecInfo, okInfos, firstFilled, fillField_none]
  | cons p ps ih =>
    have hps : ∀ q ∈ ps, infoFailureCaught q := fun q hq => h q (List.mem_cons_of_mem p hq)
    cases hp : p.infoResult with
    | ok info =>
      have step : enrichInfo base (p :: ps) = enrichInfo (mergeInfo base info) ps := by
        simp only [enrichInfo, hp]
      rw [step, enrichSpecInfo_cons_ok base ps hp]
      exact ih (mergeInfo base info) hps
    | error e =>
      have hc : e.isCaught = true := h p (List.mem_cons_self p ps) e hp
      have step : enrichInfo base (p :: ps) = enrichInfo base ps := by
        simp only [enrichInfo, hp, hc, if_true]
      rw [step, enrichSpecInfo_cons_err base ps hp]
      exact ih base hps

/-- Witness for C5 at the spec's concrete example: primary info
{name X, sector null} enriched over providers offering
{name Y, sector Tech} yields {name X, sector Tech}. -/
theorem claim_C5_witness :
    enrichInfo infoPrimaryX [providerX, providerY] =
      .ok { ticker := "TEST", name := "X", sector := some "Tech" } := by
  have h := claim_C5_enrichment infoPrimaryX [providerX, providerY]
    (by
      intro p hp e he
      rcases List.mem_cons.mp hp with h1 | h2
      · subst h1; cases he
      · rcases List.mem_cons.mp h2 with h3 | h4
        · subst h3; cases he
        · simp at h4)
  rw [h]
  rfl

/-- Claim C4 (amended): for a configured provider list [A, B] where A
fails the statement attempt with a `DataProviderError` and B succeeds,
the assembled analysis contains exactly B's statement list — but
`data_sources_used` lists the class names of ALL configured providers,
[A, B], regardless of which were successfully consulted. -/
theorem claim_C4_fallback_sources (ticker : String) (A B : DataProvider)
    (info : CompanyInfo) (stmts : List FinancialStatement)
    (hA : FailsForStatements A) (hBi : B.infoResult = .ok info)
    (hBs : B.stmtsResult = .ok stmts) (hne : stmts ≠ []) :
    (runSystem ticker [A, B]).map (Option.map (·.historical_statements)) = .ok (some stmts) ∧
    (runSystem ticker [A, B]).map (Option.map (·.data_sources_used)) =
      .ok (some [A.name, B.name]) := by
  rcases hA with ⟨m, hm⟩ | ⟨i, m, hi, hm⟩
  · constructor <;>
      simp [runSystem, fetchCompanyFinancials, firstSuccess, enrichInfo, Err.isCaught,
        hm, hBi, hBs, hne, Except.map, Option.map]
  · constructor <;>
      simp [runSystem, fetchCompanyFinancials, firstSuccess, enrichInfo, Err.isCaught,
        hi, hm, hBi, hBs, hne, Except.map, Option.map]

/-- Counterexample for C4: with provider A failing and provider B
succeeding, the assembled analysis does carry B's statements, but its
`data_sources_used` equals ["ProviderA", "ProviderB"] — B is NOT the
only entry. -/
theorem claim_C4_counterexample :
    (runSystem "TEST" [providerA, providerB]).map (Option.map (·.historical_statements)) =
      .ok (some [stmtB]) ∧
    (runSystem "TEST" [providerA, providerB]).map (Option.map (·.data_sources_used)) =
      .ok (some ["ProviderA", "ProviderB"]) ∧
    ["ProviderA", "ProviderB"] ≠ ["ProviderB"] := by
  refine ⟨rfl, rfl, ?_⟩
  decide

/-- Witness for C4's amended theorem at the concrete provider pair. -/
theorem claim_C4_witness :
    (runSystem "XYZ" [providerA, providerB]).map (Option.map (·.historical_statements)) =
      .ok (some [stmtB]) ∧
    (runSystem "XYZ" [providerA, providerB]).map (Option.map (·.data_sources_used)) =
      .ok (some ["ProviderA", "ProviderB"]) :=
  claim_C4_fallback_sources "XYZ" providerA providerB infoB [stmtB]
    (Or.inl ⟨"ProviderA failed to get info", rfl⟩) rfl rfl (List.cons_ne_nil _ _)

/-- Claim C2 (code bug): on a facts document where two acceptable
`total_debt` source tags carry retained fiscal-2023 entries of 300 and
500, the extractor records `total_debt = 300` — only the FIRST matching
tag contributes (`get_fact_data` stops at the first tag present, and the
summation term reads the never-written `debt_current_from_tag` key) —
instead of the 800 that the tag-map comment `Needs summation` and the
spec call for. -/
theorem claim_C2_no_tag_summation :
    getFinancialStatements factsTwoDebtTags "MSFT" "0000789019" 5 = .ok [stmtTwoDebt] ∧
    stmtTwoDebt.balance_sheet.total_debt = some 300 ∧ (300 : ℚ) ≠ 300 + 500 := by
  refine ⟨getFS_twoDebt, rfl, by norm_num⟩

/-- Claim C7 (amended): when extraction finds zero qualifying fiscal
years, `get_financial_statements` raises the repository's single
`DataProviderError` class (there is no distinct `NoDataError` anywhere
in the code) instead of returning an empty list. -/
theorem claim_C7_error_on_zero_years (factsDoc : Facts) (inner : FactsInner)
    (gaap : GaapFacts) (ticker cik : String) (n : Nat)
    (hf : factsDoc.facts = some inner) (hg : inner.usGaap = some gaap)
    (had : buildAnnualData gaap = .ok []) :
    getFinancialStatements factsDoc ticker cik n =
      .error (.dataProviderError ("Could not construct any financial statements for " ++
        ticker ++ ". The company might not file 10-Ks or data is unavailable.")) := by
  simp [getFinancialStatements, hf, hg, had, sortDesc, buildStatements]

/-- Counterexample for C7: on a document with zero qualifying years the
error raised is the generic `DataProviderError` — the error taxonomy of
the embedding (the `Err` type, translated from the code) has no
`NoDataError` at all. -/
theorem claim_C7_counterexample :
    getFinancialStatements factsNoYears "TEST" "0000000001" 5 =
      .error (.dataProviderError
        ("Could not construct any financial statements for TEST. " ++
          "The company might not file 10-Ks or data is unavailable.")) := rfl

/-- Witness for C7's amended theorem on the empty `us-gaap` document. -/
theorem claim_C7_witness :
    getFinancialStatements factsNoYears "AAPL" "0000320193" 3 =
      .error (.dataProviderError
        ("Could not construct any financial statements for AAPL. " ++
          "The company might not file 10-Ks or data is unavailable.")) := by
  have h := claim_C7_error_on_zero_years factsNoYears { usGaap := some [] } [] "AAPL"
    "0000320193" 3 rfl rfl rfl
  rw [h]
  rfl

/-- Claim C8 (amended): a retained annual entry that lacks the
period-end date makes item processing raise `KeyError "end"` (an
exception class no handler in the pipeline catches), and any such error
from the extraction loop propagates out of `get_financial_statements`
unchanged — the fiscal year is NOT silently dropped. -/
theorem claim_C8_missing_end_raises :
    (∀ (ad : AnnualData) (metric : String) (item : FactItem) (fy : Int),
       item.form = some "10-K" → item.fp = some "FY" → item.fy = some fy →
       item.endStr = none → processItem ad metric item = .error (.keyError "end")) ∧
    (∀ (gaap : GaapFacts) (ticker cik : String) (n : Nat) (e : Err),
       buildAnnualData gaap = .error e →
       getFinancialStatements { facts := some { usGaap := some gaap } } ticker cik n =
         .error e) := by
  constructor
  · intro ad metric item fy hform hfp hfy hend
    simp [processItem, hform, hfp, hfy, hend]
  · intro gaap ticker cik n e had
    simp [getFinancialStatements, had]

/-- Counterexample for C8: on a document whose only retained entry lacks
the period-end date, `get_financial_statements` raises `KeyError "end"`
— an error escapes, the year is not dropped. -/
theorem claim_C8_counterexample :
    getFinancialStatements factsMissingEnd "TEST" "0000000001" 5 =
      .error (.keyError "end") := rfl

/-- Witness for C8's amended theorem at the concrete end-less entry. -/
theorem claim_C8_witness :
    processItem [] "revenue" itemNoEnd = .error (.keyError "end") ∧
    getFinancialStatements { facts := some { usGaap := some gaapMissingEnd } }
      "TSLA" "0001318605" 2 = .error (.keyError "end") :=
  ⟨claim_C8_missing_end_raises.1 [] "revenue" itemNoEnd 2023 rfl rfl rfl rfl,
   claim_C8_missing_end_raises.2 gaapMissingEnd "TSLA" "0001318605" 2 (.keyError "end") rfl⟩

/-- Any statement the per-year builder constructs has a `total_debt`
that is either `none` or strictly positive. -/
theorem buildStatement_total_debt {t c : String} {y : Int} {yd : YearData}
    {s : FinancialStatement} (h : buildStatement t c y yd = .ok s) :
    s.balance_sheet.total_debt = none ∨
    ∃ v, s.balance_sheet.total_debt = some v ∧ 0 < v := by
  rw [buildStatement] at h
  split at h
  · cases h
  · cases h
    by_cases hv : 0 < pyOrZero (lookupStr yd.metrics "total_debt") +
        pyOrZero (lookupStr yd.metrics "debt_current_from_tag")
    · exact Or.inr ⟨_, by simp [hv], hv⟩
    · exact Or.inl (by simp [hv])

/-- Claim C10: every balance sheet produced by
`get_financial_statements` carries a `total_debt` that is either `none`
or strictly positive — a zero or negative aggregated debt value
(including an explicitly reported 0) is replaced by `None`. -/
theorem claim_C10_total_debt_positive (factsDoc : Facts) (ticker cik : String) (n : Nat)
    (stmts : List FinancialStatement)
    (h : getFinancialStatements factsDoc ticker cik n = .ok stmts) :
    ∀ s ∈ stmts, s.balance_sheet.total_debt = none ∨
      ∃ v, s.balance_sheet.total_debt = some v ∧ 0 < v := by
  intro s hs
  rw [getFinancialStatements] at h
  split at h
  · cases h
  · split at h
    · cases h
    · split at h
      · cases h
      · split at h
        · cases h
        · split at h
          · cases h
          · cases h
            rename_i hbs _
            obtain ⟨y, hy⟩ := buildStatements_mem hbs hs
            rw [statementForYear] at hy
            split at hy
            · cases hy
            · exact buildStatement_total_debt hy

/-- Witness for C10 on the two-debt-tag document: the single produced
statement reports a strictly positive `total_debt`. -/
theorem claim_C10_witness :
    stmtTwoDebt.balance_sheet.total_debt = none ∨
    (stmtTwoDebt.balance_sheet.total_debt).getD 0 > 0 := by
  rcases claim_C10_total_debt_positive factsTwoDebtTags "MSFT" "0000789019" 5 [stmtTwoDebt]
      getFS_twoDebt stmtTwoDebt (by simp) with h | ⟨v, hv, hpos⟩
  · exact Or.inl h
  · right
    rw [hv]
    simpa using hpos
